import Mathlib

/-!
Verification of the `django-operations` data-access layer (`operations.py`).

The development shallowly embeds the Python source:

* `Dec` models `decimal.Decimal` values (an integer mantissa scaled by a
  power of ten, the representation used by DynamoDB numerics).
* `JValue` models the JSON-like values handled by the layer (the value
  kinds of the spec's Record data model: string, numeric, boolean, null,
  nested mapping/sequence, plus backend decimals).
* `normalize` embeds the round trip
  `json.loads(json.dumps(x, cls=DecimalEncoder))` applied by every
  document-store read path: JSON-native values serialize and parse back
  unchanged (recursively), while `DecimalEncoder.default` maps a decimal
  `o` to `float(o)` when `o % 1` is nonzero and to `int(o)` otherwise.
* `OperationsDynamo.*` and `OperationsSQL.*` embed the operations of the
  two backend façades; the opaque backend handles (`tabela`, the database
  `connection`) become explicit function arguments, and Python exceptions
  that the source can leak become an `Except PyExc` result.
-/

namespace DjangoOps

/-- Arbitrary-precision decimal: `mantissa / 10 ^ scale`
(the representation of `decimal.Decimal` relevant to this code). -/
structure Dec where
  mantissa : Int
  scale : Nat

/-- Exact rational value of a decimal. -/
def Dec.toRat (d : Dec) : ℚ := (d.mantissa : ℚ) / (10 : ℚ) ^ d.scale

/-- Embeds the test `o % 1` of `DecimalEncoder.default`: true when the
fractional part of the decimal is exactly zero. -/
def Dec.fracZero (d : Dec) : Bool := d.mantissa % (10 : Int) ^ d.scale == 0

/-- Embeds `int(o)` on a decimal whose fractional part is zero (where all
integer-division conventions agree with Python's truncation). -/
def Dec.toInt (d : Dec) : Int := d.mantissa / (10 : Int) ^ d.scale

/-- JSON-like values flowing through the layer.  `dec` is a backend
arbitrary-precision decimal; the remaining constructors are the
JSON-native kinds, which `json.dumps`/`json.loads` round-trip unchanged.
`float` carries the exact rational value of the Python float. -/
inductive JValue where
  | null
  | bool (b : Bool)
  | int (n : Int)
  | float (q : ℚ)
  | str (s : String)
  | dec (d : Dec)
  | arr (xs : List JValue)
  | obj (fs : List (String × JValue))

mutual
/-- Embeds `json.loads(json.dumps(v, cls=DecimalEncoder))`: decimals with
zero fractional part become integers, other decimals become floats, and
every other value kind passes through, recursing into sequences and
mappings. -/
def normalize : JValue → JValue
  | .null => .null
  | .bool b => .bool b
  | .int n => .int n
  | .float q => .float q
  | .str s => .str s
  | .dec d => if d.fracZero then .int d.toInt else .float d.toRat
  | .arr xs => .arr (normalizeList xs)
  | .obj fs => .obj (normalizeObj fs)

/-- `normalize` mapped over the elements of a sequence. -/
def normalizeList : List JValue → List JValue
  | [] => []
  | x :: xs => normalize x :: normalizeList xs

/-- `normalize` mapped over the values of a mapping. -/
def normalizeObj : List (String × JValue) → List (String × JValue)
  | [] => []
  | (k, v) :: fs => (k, normalize v) :: normalizeObj fs
end

mutual
/-- A value that contains no decimal leaf (already-normalized data). -/
def decFree : JValue → Bool
  | .null => true
  | .bool _ => true
  | .int _ => true
  | .float _ => true
  | .str _ => true
  | .dec _ => false
  | .arr xs => decFreeList xs
  | .obj fs => decFreeObj fs

/-- `decFree` over the elements of a sequence. -/
def decFreeList : List JValue → Bool
  | [] => true
  | x :: xs => decFree x && decFreeList xs

/-- `decFree` over the values of a mapping. -/
def decFreeObj : List (String × JValue) → Bool
  | [] => true
  | (_, v) :: fs => decFree v && decFreeObj fs
end

theorem normalizeList_eq_map (xs : List JValue) : normalizeList xs = xs.map normalize := by
  induction xs with
  | nil => rfl
  | cons x xs ih => simp [normalizeList, ih]

theorem normalizeObj_eq_map (fs : List (String × JValue)) :
    normalizeObj fs = fs.map (fun p => (p.1, normalize p.2)) := by
  induction fs with
  | nil => rfl
  | cons p fs ih => cases p; simp [normalizeObj, ih]

theorem normalizeList_length (xs : List JValue) : (normalizeList xs).length = xs.length := by
  rw [normalizeList_eq_map, List.length_map]

mutual
theorem normalize_of_decFree : (v : JValue) → decFree v = true → normalize v = v
  | .null, _ => rfl
  | .bool _, _ => rfl
  | .int _, _ => rfl
  | .float _, _ => rfl
  | .str _, _ => rfl
  | .arr xs, h => by
    simp only [normalize]
    exact congrArg JValue.arr (normalizeList_of_decFreeList xs (by simpa [decFree] using h))
  | .obj fs, h => by
    simp only [normalize]
    exact congrArg JValue.obj (normalizeObj_of_decFreeObj fs (by simpa [decFree] using h))

theorem normalizeList_of_decFreeList : (xs : List JValue) → decFreeList xs = true → normalizeList xs = xs
  | [], _ => rfl
  | x :: xs, h => by
    simp only [decFreeList, Bool.and_eq_true] at h
    simp only [normalizeList]
    rw [normalize_of_decFree x h.1, normalizeList_of_decFreeList xs h.2]

theorem normalizeObj_of_decFreeObj : (fs : List (String × JValue)) → decFreeObj fs = true → normalizeObj fs = fs
  | [], _ => rfl
  | (k, v) :: fs, h => by
    simp only [decFreeObj, Bool.and_eq_true] at h
    simp only [normalizeObj]
    rw [normalize_of_decFree v h.1, normalizeObj_of_decFreeObj fs h.2]
end

mutual
theorem decFree_normalize : (v : JValue) → decFree (normalize v) = true
  | .null => rfl
  | .bool _ => rfl
  | .int _ => rfl
  | .float _ => rfl
  | .str _ => rfl
  | .dec d => by cases h : d.fracZero <;> simp [normalize, h, decFree]
  | .arr xs => by
    simp only [normalize, decFree]
    exact decFreeList_normalizeList xs
  | .obj fs => by
    simp only [normalize, decFree]
    exact decFreeObj_normalizeObj fs

theorem decFreeList_normalizeList : (xs : List JValue) → decFreeList (normalizeList xs) = true
  | [] => rfl
  | x :: xs => by
    simp only [normalizeList, decFreeList, Bool.and_eq_true]
    exact ⟨decFree_normalize x, decFreeList_normalizeList xs⟩

theorem decFreeObj_normalizeObj : (fs : List (String × JValue)) → decFreeObj (normalizeObj fs) = true
  | [] => rfl
  | (k, v) :: fs => by
    simp only [normalizeObj, decFreeObj, Bool.and_eq_true]
    exact ⟨decFree_normalize v, decFreeObj_normalizeObj fs⟩
end

theorem normalize_normalize (v : JValue) : normalize (normalize v) = normalize v :=
  normalize_of_decFree _ (decFree_normalize v)

theorem Dec.cast_toInt_of_fracZero (d : Dec) (h : d.fracZero = true) : (d.toInt : ℚ) = d.toRat := by
  have h' : d.mantissa % (10 : Int) ^ d.scale = 0 := by
    simpa [Dec.fracZero] using h
  obtain ⟨c, hc⟩ := Int.dvd_of_emod_eq_zero h'
  have h10 : ((10 : Int) ^ d.scale) ≠ 0 := by positivity
  simp only [Dec.toInt, Dec.toRat, hc]
  rw [Int.mul_ediv_cancel_left _ h10]
  push_cast
  field_simp

/-- Python truthiness of an arbitrary value (`if item:`): None, False,
zero numbers and empty strings/sequences/mappings are falsy. -/
def JValue.pyTruthy : JValue → Bool
  | .null => false
  | .bool b => b
  | .int n => decide (n ≠ 0)
  | .float q => decide (q ≠ 0)
  | .str s => !s.isEmpty
  | .dec d => decide (d.mantissa ≠ 0)
  | .arr xs => !xs.isEmpty
  | .obj fs => !fs.isEmpty

/-- Python truthiness of an `Optional[str]` argument. -/
def pyTruthyStr : Option String → Bool
  | some s => !s.isEmpty
  | none => false

/-- Python truthiness of an `Optional[Dict]` argument (a `some`-wrapped
association list): non-None and non-empty. -/
def pyTruthyDict {α β : Type} : Option (List (α × β)) → Bool
  | some (_ :: _) => true
  | _ => false

/-- Opaque pagination cursor (`LastEvaluatedKey`), round-tripped
byte-for-byte; modelled as a token. -/
abbrev Cursor := String

/-- Key-condition expression passed to `tabela.query`: either a
caller-built opaque condition (`params`/`expression` arguments) or the
`Key(k).eq(v)` condition built by `getByIndex`. -/
inductive KeyCond where
  | expr (token : String)
  | keyEq (attr : String) (value : JValue)

/-- Keyword arguments of a `tabela.query(...)` call.  A `none`/`false`
field stands for an absent keyword. -/
structure DynQuery where
  keyCond : KeyCond
  indexName : Option String := none
  scanIndexForward : Bool := true
  limit : Option Nat := none
  projection : Option String := none
  attrNames : Option (List (String × String)) := none
  filterExpr : Option String := none
  exprAttrValues : Option (List (String × JValue)) := none
  exclusiveStartKey : Option Cursor := none
  selectCount : Bool := false

/-- Response of `tabela.query`: `items` is `response.get('Items')`
(`none` when the key is absent), likewise `lastEvaluatedKey` and
`count`. -/
structure DynResponse where
  items : Option (List JValue) := none
  lastEvaluatedKey : Option Cursor := none
  count : Option Nat := none

/-- A `botocore` ClientError raised by the backend. -/
structure ClientError where
  msg : String

/-- Python exceptions that can escape an operation uncaught: `IndexError`
from `list(index.keys())[0]`, `KeyError` from `filtro['tela']`, and a
`ClientError` raised outside any `try` block. -/
inductive PyExc where
  | indexError
  | keyError
  | clientError (e : ClientError)

/-- The opaque document-store backend handle: each `tabela.query(...)`
call either raises a ClientError or returns a response. -/
abbrev Table := DynQuery → Except ClientError DynResponse

/-- Response of `tabela.get_item`: `item` is `response.get('Item')`. -/
structure GetItemResponse where
  item : Option JValue := none

/-- Backend handle for `tabela.get_item(Key=params)`. -/
abbrev GetTable := List (String × JValue) → Except ClientError GetItemResponse

/-- Result of `OperationsDynamo.get`: a normalized record or the `False`
sentinel. -/
inductive GetResult where
  | record (v : JValue)
  | failure

/-- Result of the list-returning Dynamo operations: a normalized item
sequence or the `False` sentinel. -/
inductive DynListResult where
  | items (xs : List JValue)
  | failure

/-- Result of `countQuery`: an integer count or the `False` sentinel. -/
inductive CountResult where
  | count (n : Nat)
  | failure

namespace OperationsDynamo

/-- Embeds `OperationsDynamo.get` (operations.py lines 22-33): fetch by
key, catch ClientError as `False`, return the normalized item when the
response holds a truthy item, else `False`. -/
def get (tabela : GetTable) (params : List (String × JValue)) : GetResult :=
  match tabela params with
  | .error _ => .failure
  | .ok response =>
    match response.item with
    | some item => if item.pyTruthy then .record (normalize item) else .failure
    | none => .failure

/-- Embeds `OperationsDynamo.getByIndex` (lines 36-51).
`index_key = list(index.keys())[0]` runs before the `try` block, so an
empty mapping raises an uncaught IndexError. -/
def getByIndex (tabela : Table) (index : List (String × JValue)) : Except PyExc DynListResult :=
  match index with
  | [] => .error .indexError
  | (index_key, v) :: _ =>
    match tabela { keyCond := .keyEq index_key v, indexName := some (index_key ++ "-index") } with
    | .error _ => .ok .failure
    | .ok response =>
      match response.items with
      | some (x :: xs) => .ok (.items (normalizeList (x :: xs)))
      | _ => .ok .failure

/-- Query built by `listAllPaginate` (lines 171-178) before the first
call: descending order, with projection/name aliases only when truthy. -/
def listAllPaginateQuery (params : KeyCond) (fields : Option String)
    (attrnames : Option (List (String × String))) : DynQuery :=
  { keyCond := params
    scanIndexForward := false
    projection := if pyTruthyStr fields then fields else none
    attrNames := if pyTruthyDict attrnames then attrnames else none }

/-- Embeds the `while 'LastEvaluatedKey' in response` loop of
`listAllPaginate` (lines 188-191), instrumented with the number of
backend calls made so far.  `fuel` bounds the iterations of the source's
unbounded loop: `none` means the loop would still be running.  A
ClientError raised by a query inside the loop is not caught by the
surrounding handler (the loop sits in the `else` branch). -/
def listAllPaginateLoop (tabela : Table) (query : DynQuery) :
    Nat → Option Cursor → List JValue → Nat → Option (Except PyExc (List JValue × Nat))
  | _, none, data, calls => some (.ok (data, calls))
  | 0, some _, _, _ => none
  | fuel + 1, some k, data, calls =>
    match tabela { query with exclusiveStartKey := some k } with
    | .error e => some (.error (.clientError e))
    | .ok response =>
      listAllPaginateLoop tabela query fuel response.lastEvaluatedKey
        (data ++ (response.items.getD [])) (calls + 1)

/-- Embeds `OperationsDynamo.listAllPaginate` (lines 169-194),
instrumented with the total number of `tabela.query` calls.  Returns the
`False` sentinel when the first call fails or returns no truthy item
list; otherwise accumulates pages while a cursor is present and returns
the normalized accumulated data. -/
def listAllPaginate (tabela : Table) (params : KeyCond) (fields : Option String)
    (attrnames : Option (List (String × String))) (fuel : Nat) :
    Option (Except PyExc (DynListResult × Nat)) :=
  let query := listAllPaginateQuery params fields attrnames
  match tabela query with
  | .error _ => some (.ok (.failure, 1))
  | .ok response =>
    match response.items with
    | some (x :: xs) =>
      match listAllPaginateLoop tabela query fuel response.lastEvaluatedKey (x :: xs) 1 with
      | none => none
      | some (.error e) => some (.error e)
      | some (.ok (data, calls)) => some (.ok (.items (normalizeList data), calls))
    | _ => some (.ok (.failure, 1))

/-- Query built by `getFirstRegistry` (lines 127-133): ascending order
(`ScanIndexForward=True`) with `Limit=1`. -/
def firstRegistryQuery (params : KeyCond) (fields : Option String) : DynQuery :=
  { keyCond := params
    scanIndexForward := true
    limit := some 1
    projection := if pyTruthyStr fields then fields else none }

/-- Embeds `OperationsDynamo.getFirstRegistry` (lines 125-144). -/
def getFirstRegistry (tabela : Table) (params : KeyCond) (fields : Option String) : DynListResult :=
  match tabela (firstRegistryQuery params fields) with
  | .error _ => .failure
  | .ok response =>
    match response.items with
    | some (x :: xs) => .items (normalizeList (x :: xs))
    | _ => .failure

/-- Query built by `getLastRegistry` (lines 149-155): descending order
(`ScanIndexForward=False`) with `Limit=1`. -/
def lastRegistryQuery (params : KeyCond) (fields : Option String) : DynQuery :=
  { keyCond := params
    scanIndexForward := false
    limit := some 1
    projection := if pyTruthyStr fields then fields else none }

/-- Embeds `OperationsDynamo.getLastRegistry` (lines 147-166). -/
def getLastRegistry (tabela : Table) (params : KeyCond) (fields : Option String) : DynListResult :=
  match tabela (lastRegistryQuery params fields) with
  | .error _ => .failure
  | .ok response =>
    match response.items with
    | some (x :: xs) => .items (normalizeList (x :: xs))
    | _ => .failure

/-- Query built by `scanPaginate` (lines 199-208): descending order,
mandatory projection and limit, aliases/start key only when truthy. -/
def scanQuery (expression : KeyCond) (fields : String) (lastKey : Option Cursor)
    (limit : Nat) (attrnames : Option (List (String × String))) : DynQuery :=
  { keyCond := expression
    scanIndexForward := false
    projection := some fields
    limit := some limit
    attrNames := if pyTruthyDict attrnames then attrnames else none
    exclusiveStartKey := if pyTruthyStr lastKey then lastKey else none }

/-- The `{"lastKey": ..., "results": ...}` dictionary returned by
`scanPaginate`. -/
structure ScanResult where
  lastKey : Option Cursor
  results : List JValue

/-- Embeds `OperationsDynamo.scanPaginate` (lines 197-222), paired with
the number of `tabela.query` calls (always exactly one: the operation
never auto-continues).  A ClientError and an empty/absent item list both
yield `{"lastKey": None, "results": []}`; a truthy item list yields the
response's `LastEvaluatedKey` (absent ⇒ `None`) and the normalized
items. -/
def scanPaginate (tabela : Table) (expression : KeyCond) (fields : String)
    (lastKey : Option Cursor) (limit : Nat) (attrnames : Option (List (String × String))) :
    ScanResult × Nat :=
  match tabela (scanQuery expression fields lastKey limit attrnames) with
  | .error _ => ({ lastKey := none, results := [] }, 1)
  | .ok response =>
    match response.items with
    | some (x :: xs) =>
      ({ lastKey := response.lastEvaluatedKey, results := normalizeList (x :: xs) }, 1)
    | _ => ({ lastKey := none, results := [] }, 1)

/-- Query issued by `queryFilter` when a truthy filter is supplied
(lines 246-250): the fixed three-clause OR filter expression with `:t`
bound to the filter's `tela` value and `:d`, `:c` hardcoded to
`False`. -/
def queryFilterFilteredQuery (expression : KeyCond) (t : JValue) : DynQuery :=
  { keyCond := expression
    filterExpr := some "tela = :t OR descricao = :d OR cliente = :c"
    exprAttrValues := some [(":t", t), (":d", .bool false), (":c", .bool false)] }

/-- Query issued by `queryFilter` when no truthy filter is supplied
(line 252): a plain key-condition query. -/
def queryFilterPlainQuery (expression : KeyCond) : DynQuery :=
  { keyCond := expression }

/-- Query built by `queryFilter` (lines 245-252), or the uncaught
`KeyError` from `filtro['tela']` when the supplied filter mapping lacks
that key (`except ClientError` does not catch KeyError). -/
def queryFilterQuery (expression : KeyCond) (filtro : Option (List (String × JValue))) :
    Except PyExc DynQuery :=
  if pyTruthyDict filtro then
    match (filtro.getD []).lookup "tela" with
    | none => .error .keyError
    | some t => .ok (queryFilterFilteredQuery expression t)
  else
    .ok (queryFilterPlainQuery expression)

/-- Embeds `OperationsDynamo.queryFilter` (lines 243-261). -/
def queryFilter (tabela : Table) (expression : KeyCond)
    (filtro : Option (List (String × JValue))) : Except PyExc DynListResult :=
  match queryFilterQuery expression filtro with
  | .error e => .error e
  | .ok q =>
    match tabela q with
    | .error _ => .ok .failure
    | .ok response =>
      match response.items with
      | some (x :: xs) => .ok (.items (normalizeList (x :: xs)))
      | _ => .ok .failure

/-- Query built by `countQuery` (lines 266-270): count-only select,
descending order. -/
def countQueryQuery (params : KeyCond) : DynQuery :=
  { keyCond := params
    scanIndexForward := false
    selectCount := true }

/-- Embeds `OperationsDynamo.countQuery` (lines 264-279): the `Count`
field is returned whenever present (`if count is not None`), so a zero
count is returned as `0`, not as the `False` sentinel. -/
def countQuery (tabela : Table) (params : KeyCond) : CountResult :=
  match tabela (countQueryQuery params) with
  | .error _ => .failure
  | .ok response =>
    match response.count with
    | some n => .count n
    | none => .failure

end OperationsDynamo

/-- A row fetched from the relational backend. -/
abbrev Row := List JValue

/-- Column descriptors plus row tuples yielded by the relational
cursor. -/
structure SQLResultSet where
  columns : List String
  rows : List Row

/-- The relational backend handle: executing a raw statement string
either raises (any `Exception`) or yields a result set. -/
abbrev SQLConn := String → Except String SQLResultSet

namespace OperationsSQL

/-- Offset computed by `OperationsSQL.filter` (line 301):
`(pagina - 1) * limite_por_pagina`. -/
def filterOffset (pagina limite_por_pagina : Int) : Int :=
  (pagina - 1) * limite_por_pagina

/-- Statement assembled by `OperationsSQL.filter` (lines 303-320),
reproducing the f-string layout of the source. -/
def filterQueryStr (tabela : String) (condicao campo_ordenar ordenacao : Option String)
    (limite_por_pagina pagina : Int) (inner_join_receive select_receive : Option String) :
    String :=
  let offset := filterOffset pagina limite_por_pagina
  let select := if pyTruthyStr select_receive then select_receive.getD "" else "*"
  let inner_join := if pyTruthyStr inner_join_receive then inner_join_receive.getD "" else ""
  let order_clause :=
    if pyTruthyStr campo_ordenar && pyTruthyStr ordenacao then
      "ORDER BY " ++ campo_ordenar.getD "" ++ " " ++ ordenacao.getD ""
    else ""
  let where_clause := if pyTruthyStr condicao then "WHERE " ++ condicao.getD "" else ""
  "\n            SELECT " ++ select ++ " FROM " ++ tabela
    ++ "\n            " ++ inner_join
    ++ "\n            " ++ where_clause
    ++ "\n            " ++ order_clause
    ++ "\n            LIMIT " ++ toString limite_por_pagina
    ++ " OFFSET " ++ toString offset
    ++ "\n        "

/-- Embeds `OperationsSQL.filter` (lines 300-333): execute the assembled
statement, mapping each row to a field→value record via
`dict(zip(columns, row))`; any execution fault yields `[]`. -/
def filter (conn : SQLConn) (tabela : String) (condicao campo_ordenar ordenacao : Option String)
    (limite_por_pagina pagina : Int) (inner_join_receive select_receive : Option String) :
    List (List (String × JValue)) :=
  match conn (filterQueryStr tabela condicao campo_ordenar ordenacao
      limite_por_pagina pagina inner_join_receive select_receive) with
  | .error _ => []
  | .ok rs => rs.rows.map (fun row => rs.columns.zip row)

/-- Statement assembled by `OperationsSQL.count` (lines 337-347). -/
def countQueryStr (tabela field_count : String) (condicao inner_join_receive : Option String) :
    String :=
  let select := "COUNT(" ++ field_count ++ ") AS total"
  let inner_join := if pyTruthyStr inner_join_receive then inner_join_receive.getD "" else ""
  let where_clause := if pyTruthyStr condicao then "WHERE " ++ condicao.getD "" else ""
  "\n            SELECT " ++ select ++ " FROM " ++ tabela
    ++ "\n            " ++ inner_join
    ++ "\n            " ++ where_clause
    ++ "\n        "

/-- Embeds `OperationsSQL.count` (lines 336-359): the aggregation row is
returned as fetched (a one-row result set with a `total` column),
faults yield `[]`. -/
def count (conn : SQLConn) (tabela field_count : String)
    (condicao inner_join_receive : Option String) : List (List (String × JValue)) :=
  match conn (countQueryStr tabela field_count condicao inner_join_receive) with
  | .error _ => []
  | .ok rs => rs.rows.map (fun row => rs.columns.zip row)

end OperationsSQL

/-- C1: the numeric normalization applied by every document-store read
path replaces each decimal by an equal integer when its fractional part
is exactly zero and by a float equal to its value otherwise, recurses
into nested mappings and sequences, and passes every non-decimal value
through unchanged. -/
theorem C1_codec_normalization :
    (∀ d : Dec, d.fracZero = true →
        normalize (.dec d) = .int d.toInt ∧ (d.toInt : ℚ) = d.toRat)
    ∧ (∀ d : Dec, d.fracZero = false →
        normalize (.dec d) = .float d.toRat)
    ∧ (∀ xs : List JValue, normalize (.arr xs) = .arr (xs.map normalize))
    ∧ (∀ fs : List (String × JValue),
        normalize (.obj fs) = .obj (fs.map (fun p => (p.1, normalize p.2))))
    ∧ (∀ v : JValue, decFree v = true → normalize v = v) := by
  refine ⟨?_, ?_, ?_, ?_, normalize_of_decFree⟩
  · intro d h
    exact ⟨by simp [normalize, h], Dec.cast_toInt_of_fracZero d h⟩
  · intro d h
    simp [normalize, h]
  · intro xs
    simp [normalize, normalizeList_eq_map]
  · intro fs
    simp [normalize, normalizeObj_eq_map]

/-- Witness for C1: the decimal 4.0 normalizes to the integer 4, the
decimal 2.5 normalizes to the float 5/2, and a decimal-free nested value
is unchanged. -/
theorem C1_codec_normalization_witness :
    (Dec.fracZero ⟨40, 1⟩ = true
      ∧ normalize (.dec ⟨40, 1⟩) = .int (Dec.toInt ⟨40, 1⟩)
      ∧ ((Dec.toInt ⟨40, 1⟩ : Int) : ℚ) = Dec.toRat ⟨40, 1⟩)
    ∧ (Dec.fracZero ⟨25, 1⟩ = false
      ∧ normalize (.dec ⟨25, 1⟩) = .float (Dec.toRat ⟨25, 1⟩))
    ∧ (decFree (.arr [.int 3, .str "a"]) = true
      ∧ normalize (.arr [.int 3, .str "a"]) = .arr [.int 3, .str "a"]) := by
  refine ⟨⟨by decide, ?_, ?_⟩, ⟨by decide, ?_⟩, ⟨by decide, ?_⟩⟩
  · exact (C1_codec_normalization.1 ⟨40, 1⟩ (by decide)).1
  · exact (C1_codec_normalization.1 ⟨40, 1⟩ (by decide)).2
  · exact C1_codec_normalization.2.1 ⟨25, 1⟩ (by decide)
  · exact C1_codec_normalization.2.2.2.2 _ (by decide)

/-- C9: numeric normalization is idempotent — applying it twice yields
the same result as applying it once. -/
theorem C9_normalize_idempotent (v : JValue) : normalize (normalize v) = normalize v :=
  normalize_normalize v

/-- Backend used by the C3 counterexample and witness: every query
succeeds with one item. -/
def exOkTable : Table := fun _ => .ok { items := some [.int 1] }

/-- C3 counterexample: `getByIndex` called with an empty index mapping
raises an uncaught `IndexError` from `list(index.keys())[0]` (executed
before the `try` block) instead of returning a result or the `False`
sentinel — the fault propagates to the caller even though the backend
itself never fails. -/
theorem C3_counterexample_getByIndex_raises :
    OperationsDynamo.getByIndex exOkTable [] = .error .indexError := rfl

/-- Whenever the query construction of `queryFilter` succeeds, the
operation returns `Except.ok` whatever the backend does. -/
theorem queryFilter_ok_of_query_ok (tabela : Table) (expression : KeyCond)
    (filtro : Option (List (String × JValue))) (q : DynQuery)
    (hq : OperationsDynamo.queryFilterQuery expression filtro = .ok q) :
    ∃ r, OperationsDynamo.queryFilter tabela expression filtro = .ok r := by
  rcases ht : tabela q with e | response
  · exact ⟨.failure, by simp [OperationsDynamo.queryFilter, hq, ht]⟩
  · rcases hitems : response.items with _ | items
    · exact ⟨.failure, by simp [OperationsDynamo.queryFilter, hq, ht, hitems]⟩
    · cases items with
      | nil => exact ⟨.failure, by simp [OperationsDynamo.queryFilter, hq, ht, hitems]⟩
      | cons x xs =>
        exact ⟨.items (normalizeList (x :: xs)),
          by simp [OperationsDynamo.queryFilter, hq, ht, hitems]⟩

/-- C3 (amended): every backend-level fault is caught and converted to
the failure sentinel, and each operation returns a well-formed result or
the sentinel, provided the operation's own input processing does not
fault first: `get` unconditionally; `getByIndex` for every non-empty
index mapping; `queryFilter` whenever the supplied filter object, if
truthy, contains the `tela` key. -/
theorem C3_fault_conversion :
    (∀ (g : GetTable) (p : List (String × JValue)),
        (∃ v, OperationsDynamo.get g p = .record v) ∨ OperationsDynamo.get g p = .failure)
    ∧ (∀ (tabela : Table) (index : List (String × JValue)), index ≠ [] →
        ∃ r, OperationsDynamo.getByIndex tabela index = .ok r)
    ∧ (∀ (tabela : Table) (expression : KeyCond) (filtro : Option (List (String × JValue))),
        (pyTruthyDict filtro = true → ((filtro.getD []).lookup "tela").isSome) →
        ∃ r, OperationsDynamo.queryFilter tabela expression filtro = .ok r) := by
  refine ⟨?_, ?_, ?_⟩
  · intro g p
    rcases hgp : g p with e | response
    · exact Or.inr (by simp [OperationsDynamo.get, hgp])
    · rcases hitem : response.item with _ | item
      · exact Or.inr (by simp [OperationsDynamo.get, hgp, hitem])
      · cases htr : item.pyTruthy with
        | false => exact Or.inr (by simp [OperationsDynamo.get, hgp, hitem, htr])
        | true => exact Or.inl ⟨normalize item, by simp [OperationsDynamo.get, hgp, hitem, htr]⟩
  · intro tabela index hne
    obtain ⟨⟨index_key, v⟩, rest, rfl⟩ : ∃ p rest, index = p :: rest := by
      cases index with
      | nil => exact absurd rfl hne
      | cons p rest => exact ⟨p, rest, rfl⟩
    rcases hq : tabela { keyCond := .keyEq index_key v, indexName := some (index_key ++ "-index") }
        with e | response
    · exact ⟨.failure, by simp [OperationsDynamo.getByIndex, hq]⟩
    · rcases hitems : response.items with _ | items
      · exact ⟨.failure, by simp [OperationsDynamo.getByIndex, hq, hitems]⟩
      · cases items with
        | nil => exact ⟨.failure, by simp [OperationsDynamo.getByIndex, hq, hitems]⟩
        | cons x xs =>
          exact ⟨.items (normalizeList (x :: xs)), by simp [OperationsDynamo.getByIndex, hq, hitems]⟩
  · intro tabela expression filtro htela
    cases hf : pyTruthyDict filtro with
    | false =>
      exact queryFilter_ok_of_query_ok tabela expression filtro
        (OperationsDynamo.queryFilterPlainQuery expression)
        (by simp [OperationsDynamo.queryFilterQuery, hf])
    | true =>
      obtain ⟨t, ht⟩ := Option.isSome_iff_exists.mp (htela hf)
      exact queryFilter_ok_of_query_ok tabela expression filtro
        (OperationsDynamo.queryFilterFilteredQuery expression t)
        (by simp [OperationsDynamo.queryFilterQuery, hf, ht])

/-- Backend used by the C3 witness for `get`. -/
def exGetTable : GetTable := fun _ => .ok { item := some (.obj [("id", .int 1)]) }

/-- Witness for C3 at concrete inputs: a one-field index mapping, an
absent filter, and a concrete `get` call. -/
theorem C3_fault_conversion_witness :
    (∃ r, OperationsDynamo.getByIndex exOkTable [("id", .int 1)] = .ok r)
    ∧ (∃ r, OperationsDynamo.queryFilter exOkTable (.expr "pk = :v") none = .ok r)
    ∧ ((∃ v, OperationsDynamo.get exGetTable [] = .record v)
        ∨ OperationsDynamo.get exGetTable [] = .failure) :=
  ⟨C3_fault_conversion.2.1 exOkTable [("id", .int 1)] (by simp),
   C3_fault_conversion.2.2 exOkTable (.expr "pk = :v") none (by simp [pyTruthyDict]),
   C3_fault_conversion.1 exGetTable []⟩

/-- Unfolding lemma: the pagination loop stops as soon as no cursor is
present. -/
theorem listAllPaginateLoop_none (tabela : Table) (query : DynQuery) (fuel : Nat)
    (data : List JValue) (calls : Nat) :
    OperationsDynamo.listAllPaginateLoop tabela query fuel none data calls
      = some (.ok (data, calls)) := by
  cases fuel <;> rfl

/-- Unfolding lemma: one iteration of the pagination loop while a cursor
is present. -/
theorem listAllPaginateLoop_succ (tabela : Table) (query : DynQuery) (fuel : Nat) (k : Cursor)
    (data : List JValue) (calls : Nat) :
    OperationsDynamo.listAllPaginateLoop tabela query (fuel + 1) (some k) data calls
      = match tabela { query with exclusiveStartKey := some k } with
        | .error e => some (.error (.clientError e))
        | .ok response =>
            OperationsDynamo.listAllPaginateLoop tabela query fuel response.lastEvaluatedKey
              (data ++ (response.items.getD [])) (calls + 1) := rfl

/-- C2 (amended): against a backend returning the pages
`[P1(cursor=c1), P2(cursor=c2), P3(cursor=none)]`, with the first page
non-empty, `listAllPaginate` returns the normalized concatenation
`P1+P2+P3` in original order after exactly 3 backend query calls,
continuing exactly as long as the previous response carries a
continuation cursor (any loop allowance of at least two continuation
steps gives the same terminated run). -/
theorem C2_listAllPaginate_three_pages (tabela : Table) (params : KeyCond)
    (fields : Option String) (attrnames : Option (List (String × String)))
    (P1 P2 P3 : List JValue) (c1 c2 : Cursor)
    (h1 : tabela (OperationsDynamo.listAllPaginateQuery params fields attrnames)
        = .ok { items := some P1, lastEvaluatedKey := some c1 })
    (h2 : tabela { OperationsDynamo.listAllPaginateQuery params fields attrnames with
          exclusiveStartKey := some c1 }
        = .ok { items := some P2, lastEvaluatedKey := some c2 })
    (h3 : tabela { OperationsDynamo.listAllPaginateQuery params fields attrnames with
          exclusiveStartKey := some c2 }
        = .ok { items := some P3, lastEvaluatedKey := none })
    (hP1 : P1 ≠ []) (fuel : Nat) :
    OperationsDynamo.listAllPaginate tabela params fields attrnames (fuel + 2)
      = some (.ok (.items (normalizeList (P1 ++ P2 ++ P3)), 3)) := by
  obtain ⟨x, xs, rfl⟩ := List.exists_cons_of_ne_nil hP1
  have hshape : fuel + 2 = fuel + 1 + 1 := rfl
  simp only [OperationsDynamo.listAllPaginate, h1, hshape, listAllPaginateLoop_succ, h2, h3,
    listAllPaginateLoop_none, Option.getD_some, List.append_assoc, List.cons_append]

/-- Backend used by the C2 counterexample: three pages whose first page
is empty but carries a continuation cursor. -/
def exEmptyFirstPageTable : Table := fun q =>
  match q.exclusiveStartKey with
  | none => .ok { items := some [], lastEvaluatedKey := some "c1" }
  | some "c1" => .ok { items := some [.int 2], lastEvaluatedKey := some "c2" }
  | _ => .ok { items := some [.int 3], lastEvaluatedKey := none }

/-- C2 counterexample: a backend returning the pages
`[P1=[](cursor=c1), P2=[2](cursor=c2), P3=[3](cursor=none)]` makes
`listAllPaginate` return the `False` sentinel after a single backend
call — not the concatenation `P1+P2+P3` after 3 calls, and the cursor of
the first response is not followed. -/
theorem C2_counterexample_empty_first_page :
    (exEmptyFirstPageTable (OperationsDynamo.listAllPaginateQuery (.expr "pk") none none)
        = .ok { items := some [], lastEvaluatedKey := some "c1" })
    ∧ (exEmptyFirstPageTable { OperationsDynamo.listAllPaginateQuery (.expr "pk") none none with
          exclusiveStartKey := some "c1" }
        = .ok { items := some [.int 2], lastEvaluatedKey := some "c2" })
    ∧ (exEmptyFirstPageTable { OperationsDynamo.listAllPaginateQuery (.expr "pk") none none with
          exclusiveStartKey := some "c2" }
        = .ok { items := some [.int 3], lastEvaluatedKey := none })
    ∧ OperationsDynamo.listAllPaginate exEmptyFirstPageTable (.expr "pk") none none 2
        = some (.ok (.failure, 1))
    ∧ DynListResult.failure ≠ .items (normalizeList ([] ++ [.int 2] ++ [.int 3])) :=
  ⟨rfl, rfl, rfl, rfl, fun h => nomatch h⟩

/-- Backend used by the C2 witness: three one-item pages. -/
def exThreePagesTable : Table := fun q =>
  match q.exclusiveStartKey with
  | none => .ok { items := some [.int 1], lastEvaluatedKey := some "c1" }
  | some "c1" => .ok { items := some [.int 2], lastEvaluatedKey := some "c2" }
  | _ => .ok { items := some [.int 3], lastEvaluatedKey := none }

/-- Witness for C2 at a concrete three-page backend. -/
theorem C2_listAllPaginate_three_pages_witness :
    OperationsDynamo.listAllPaginate exThreePagesTable (.expr "pk") none none (0 + 2)
      = some (.ok (.items (normalizeList ([.int 1] ++ [.int 2] ++ [.int 3])), 3)) :=
  C2_listAllPaginate_three_pages exThreePagesTable (.expr "pk") none none
    [.int 1] [.int 2] [.int 3] "c1" "c2" rfl rfl rfl (by simp) 0

/-- C10: when the first response of `listAllPaginate` contains no items
(an absent or empty item list), the operation returns the `False`
sentinel after exactly one backend call and does not follow the
continuation cursor, even though the response carries one. -/
theorem C10_listAllPaginate_empty_first_page (tabela : Table) (params : KeyCond)
    (fields : Option String) (attrnames : Option (List (String × String))) (fuel : Nat)
    (response : DynResponse) (c : Cursor)
    (h : tabela (OperationsDynamo.listAllPaginateQuery params fields attrnames) = .ok response)
    (hitems : response.items = none ∨ response.items = some [])
    (_hkey : response.lastEvaluatedKey = some c) :
    OperationsDynamo.listAllPaginate tabela params fields attrnames fuel
      = some (.ok (.failure, 1)) := by
  rcases hitems with hi | hi <;>
    simp [OperationsDynamo.listAllPaginate, h, hi]

/-- Witness for C10: a concrete backend whose first response has an
empty item list and a continuation cursor. -/
theorem C10_listAllPaginate_empty_first_page_witness :
    OperationsDynamo.listAllPaginate exEmptyFirstPageTable (.expr "pk") none none 5
      = some (.ok (.failure, 1)) :=
  C10_listAllPaginate_empty_first_page exEmptyFirstPageTable (.expr "pk") none none 5
    { items := some [], lastEvaluatedKey := some "c1" } "c1" rfl (Or.inr rfl) rfl

/-- C4: given a backend response with a non-empty item sequence and a
continuation cursor, `scanPaginate` returns the backend's continuation
value as `lastKey` (the result's cursor field) and the normalized items
of exactly that one page as `results`, issuing exactly one backend call;
on a backend fault it returns `{"lastKey": None, "results": []}`. -/
theorem C4_scanPaginate_single_page (tabela : Table) (expression : KeyCond) (fields : String)
    (lastKey : Option Cursor) (limit : Nat) (attrnames : Option (List (String × String))) :
    (∀ (response : DynResponse) (items : List JValue) (c : Cursor),
        tabela (OperationsDynamo.scanQuery expression fields lastKey limit attrnames)
          = .ok response →
        response.items = some items → items ≠ [] → response.lastEvaluatedKey = some c →
        OperationsDynamo.scanPaginate tabela expression fields lastKey limit attrnames
          = ({ lastKey := some c, results := normalizeList items }, 1))
    ∧ (∀ e : ClientError,
        tabela (OperationsDynamo.scanQuery expression fields lastKey limit attrnames)
          = .error e →
        OperationsDynamo.scanPaginate tabela expression fields lastKey limit attrnames
          = ({ lastKey := none, results := [] }, 1)) := by
  constructor
  · intro response items c hq hitems hne hkey
    obtain ⟨x, xs, rfl⟩ := List.exists_cons_of_ne_nil hne
    simp [OperationsDynamo.scanPaginate, hq, hitems, hkey]
  · intro e hq
    simp [OperationsDynamo.scanPaginate, hq]

/-- Backend used by the C4 witness: one page with a cursor. -/
def exScanTable : Table := fun _ =>
  .ok { items := some [.int 7], lastEvaluatedKey := some "ck" }

/-- Backend raising a ClientError on every call. -/
def exErrTable : Table := fun _ => .error { msg := "boom" }

/-- Witness for C4: a concrete one-page response and a concrete backend
fault. -/
theorem C4_scanPaginate_single_page_witness :
    OperationsDynamo.scanPaginate exScanTable (.expr "pk") "f" none 10 none
      = ({ lastKey := some "ck", results := normalizeList [.int 7] }, 1)
    ∧ OperationsDynamo.scanPaginate exErrTable (.expr "pk") "f" none 10 none
      = ({ lastKey := none, results := [] }, 1) :=
  ⟨(C4_scanPaginate_single_page exScanTable (.expr "pk") "f" none 10 none).1
      { items := some [.int 7], lastEvaluatedKey := some "ck" } [.int 7] "ck"
      rfl rfl (by simp) rfl,
   (C4_scanPaginate_single_page exErrTable (.expr "pk") "f" none 10 none).2
      { msg := "boom" } rfl⟩

/-- C5: when the count-only query succeeds with a zero count,
`countQuery` returns the integer 0 and not the `False` sentinel; the
relational `count` likewise returns its zero-count aggregation row
rather than the empty failure value. -/
theorem C5_zero_count_not_failure :
    (∀ (tabela : Table) (params : KeyCond) (response : DynResponse),
        tabela (OperationsDynamo.countQueryQuery params) = .ok response →
        response.count = some 0 →
        OperationsDynamo.countQuery tabela params = .count 0
          ∧ OperationsDynamo.countQuery tabela params ≠ .failure)
    ∧ (∀ (conn : SQLConn) (tabela field_count : String)
        (condicao inner_join_receive : Option String),
        conn (OperationsSQL.countQueryStr tabela field_count condicao inner_join_receive)
          = .ok { columns := ["total"], rows := [[.int 0]] } →
        OperationsSQL.count conn tabela field_count condicao inner_join_receive
          = [[("total", .int 0)]]
          ∧ OperationsSQL.count conn tabela field_count condicao inner_join_receive ≠ []) := by
  constructor
  · intro tabela params response hq hc
    have h1 : OperationsDynamo.countQuery tabela params = .count 0 := by
      simp [OperationsDynamo.countQuery, hq, hc]
    refine ⟨h1, ?_⟩
    rw [h1]
    exact fun h => nomatch h
  · intro conn tabela field_count condicao inner_join_receive hq
    have h1 : OperationsSQL.count conn tabela field_count condicao inner_join_receive
        = [[("total", .int 0)]] := by
      simp [OperationsSQL.count, hq]
    refine ⟨h1, ?_⟩
    rw [h1]
    exact fun h => nomatch h

/-- Backend used by the C5 Dynamo witness: a successful count-only
response counting zero rows. -/
def exZeroCountTable : Table := fun _ => .ok { count := some 0 }

/-- Relational backend used by the C5 SQL witness: the aggregation
returns a single `total = 0` row. -/
def exZeroCountConn : SQLConn := fun _ =>
  .ok { columns := ["total"], rows := [[.int 0]] }

/-- Witness for C5 at concrete zero-count backends. -/
theorem C5_zero_count_not_failure_witness :
    (OperationsDynamo.countQuery exZeroCountTable (.expr "pk") = .count 0
      ∧ OperationsDynamo.countQuery exZeroCountTable (.expr "pk") ≠ .failure)
    ∧ (OperationsSQL.count exZeroCountConn "t" "id" none none = [[("total", .int 0)]]
      ∧ OperationsSQL.count exZeroCountConn "t" "id" none none ≠ []) :=
  ⟨C5_zero_count_not_failure.1 exZeroCountTable (.expr "pk") { count := some 0 } rfl rfl,
   C5_zero_count_not_failure.2 exZeroCountConn "t" "id" none none rfl⟩

/-- Modelled from the spec (§6, §4.2 ordering semantics — the
document-store backend itself is an external collaborator not in the
source): a backend holding three records with sort keys 1, 2, 3; a query
returns them in ascending key order when `ScanIndexForward` is true and
in descending key order otherwise, honoring `Limit`. -/
def threeRowBackend (r1 r2 r3 : JValue) : Table := fun q =>
  let ordered := if q.scanIndexForward then [r1, r2, r3] else [r3, r2, r1]
  let limited := match q.limit with
    | some n => ordered.take n
    | none => ordered
  .ok { items := some limited, lastEvaluatedKey := none, count := some limited.length }

/-- A backend that never returns more items than the query's `Limit`. -/
def honorsLimit (tabela : Table) : Prop :=
  ∀ (q : DynQuery) (response : DynResponse) (xs : List JValue) (n : Nat),
    tabela q = .ok response → response.items = some xs → q.limit = some n → xs.length ≤ n

/-- Every `threeRowBackend` honors query limits. -/
theorem threeRowBackend_honorsLimit (r1 r2 r3 : JValue) :
    honorsLimit (threeRowBackend r1 r2 r3) := by
  intro q response xs n hq hitems hlim
  simp only [threeRowBackend, hlim] at hq
  obtain rfl : response
      = { items := some ((if q.scanIndexForward then [r1, r2, r3] else [r3, r2, r1]).take n),
          lastEvaluatedKey := none,
          count := some ((if q.scanIndexForward then [r1, r2, r3] else [r3, r2, r1]).take n).length }
      := by
    cases hq
    rfl
  obtain rfl : xs = (if q.scanIndexForward then [r1, r2, r3] else [r3, r2, r1]).take n := by
    simpa using hitems.symm
  exact List.length_take_le n _

/-- C6: `getFirstRegistry` queries in ascending order with limit 1 and
`getLastRegistry` in descending order with limit 1; against a backend
holding records with sort keys `[1,2,3]` they return the (normalized)
records keyed 1 and 3 respectively, and against any backend honoring
`Limit` each returns at most one record. -/
theorem C6_first_last_registry :
    (∀ (params : KeyCond) (fields : Option String),
        (OperationsDynamo.firstRegistryQuery params fields).scanIndexForward = true
        ∧ (OperationsDynamo.firstRegistryQuery params fields).limit = some 1
        ∧ (OperationsDynamo.lastRegistryQuery params fields).scanIndexForward = false
        ∧ (OperationsDynamo.lastRegistryQuery params fields).limit = some 1)
    ∧ (∀ (r1 r2 r3 : JValue) (params : KeyCond) (fields : Option String),
        OperationsDynamo.getFirstRegistry (threeRowBackend r1 r2 r3) params fields
          = .items [normalize r1]
        ∧ OperationsDynamo.getLastRegistry (threeRowBackend r1 r2 r3) params fields
          = .items [normalize r3])
    ∧ (∀ tabela : Table, honorsLimit tabela →
        ∀ (params : KeyCond) (fields : Option String) (xs : List JValue),
        (OperationsDynamo.getFirstRegistry tabela params fields = .items xs → xs.length ≤ 1)
        ∧ (OperationsDynamo.getLastRegistry tabela params fields = .items xs → xs.length ≤ 1)) := by
  refine ⟨fun params fields => ⟨rfl, rfl, rfl, rfl⟩, ?_, ?_⟩
  · intro r1 r2 r3 params fields
    constructor
    · simp [OperationsDynamo.getFirstRegistry, threeRowBackend,
        OperationsDynamo.firstRegistryQuery, normalizeList]
    · simp [OperationsDynamo.getLastRegistry, threeRowBackend,
        OperationsDynamo.lastRegistryQuery, normalizeList]
  · intro tabela ht params fields xs
    constructor
    · intro h
      rcases hq : tabela (OperationsDynamo.firstRegistryQuery params fields) with e | response
      · simp [OperationsDynamo.getFirstRegistry, hq] at h
      · rcases hitems : response.items with _ | items
        · simp [OperationsDynamo.getFirstRegistry, hq, hitems] at h
        · cases items with
          | nil => simp [OperationsDynamo.getFirstRegistry, hq, hitems] at h
          | cons x rest =>
            simp only [OperationsDynamo.getFirstRegistry, hq, hitems] at h
            have hlen := ht _ _ _ _ hq hitems
              (rfl : (OperationsDynamo.firstRegistryQuery params fields).limit = some 1)
            obtain rfl : xs = normalizeList (x :: rest) := by
              cases h
              rfl
            rw [normalizeList_length]
            exact hlen
    · intro h
      rcases hq : tabela (OperationsDynamo.lastRegistryQuery params fields) with e | response
      · simp [OperationsDynamo.getLastRegistry, hq] at h
      · rcases hitems : response.items with _ | items
        · simp [OperationsDynamo.getLastRegistry, hq, hitems] at h
        · cases items with
          | nil => simp [OperationsDynamo.getLastRegistry, hq, hitems] at h
          | cons x rest =>
            simp only [OperationsDynamo.getLastRegistry, hq, hitems] at h
            have hlen := ht _ _ _ _ hq hitems
              (rfl : (OperationsDynamo.lastRegistryQuery params fields).limit = some 1)
            obtain rfl : xs = normalizeList (x :: rest) := by
              cases h
              rfl
            rw [normalizeList_length]
            exact hlen

/-- Witness for C6: the three-record backend with records tagged by
their sort keys 1, 2, 3. -/
theorem C6_first_last_registry_witness :
    OperationsDynamo.getFirstRegistry (threeRowBackend (.int 1) (.int 2) (.int 3))
        (.expr "pk") none = .items [normalize (.int 1)]
    ∧ OperationsDynamo.getLastRegistry (threeRowBackend (.int 1) (.int 2) (.int 3))
        (.expr "pk") none = .items [normalize (.int 3)]
    ∧ (OperationsDynamo.getFirstRegistry (threeRowBackend (.int 1) (.int 2) (.int 3))
        (.expr "pk") none = .items [normalize (.int 1)] → ([normalize (.int 1)]).length ≤ 1) :=
  ⟨(C6_first_last_registry.2.1 (.int 1) (.int 2) (.int 3) (.expr "pk") none).1,
   (C6_first_last_registry.2.1 (.int 1) (.int 2) (.int 3) (.expr "pk") none).2,
   (C6_first_last_registry.2.2 (threeRowBackend (.int 1) (.int 2) (.int 3))
      (threeRowBackend_honorsLimit (.int 1) (.int 2) (.int 3))
      (.expr "pk") none [normalize (.int 1)]).1⟩

/-- C7: the relational `filter` computes `offset = (pagina - 1) *
limite_por_pagina` and assembles the statement `SELECT <proj> FROM
<table> <join> <where> <order> LIMIT <size> OFFSET <offset>` (in the
source's f-string layout); in particular, against a backend holding a
12-row result set and honoring the assembled `LIMIT 5 OFFSET 5` clause
(the hypothesis `hconn` states that standard SQL semantics: drop the
offset rows, take the limit rows), `pagina = 2` and
`limite_por_pagina = 5` yield exactly rows 6-10. -/
theorem C7_filter_offset_pagination :
    (∀ (tabela : String) (condicao campo_ordenar ordenacao : Option String)
        (limite_por_pagina pagina : Int) (inner_join_receive select_receive : Option String),
        OperationsSQL.filterOffset pagina limite_por_pagina = (pagina - 1) * limite_por_pagina
        ∧ OperationsSQL.filterQueryStr tabela condicao campo_ordenar ordenacao
            limite_por_pagina pagina inner_join_receive select_receive
          = "\n            SELECT "
            ++ (if pyTruthyStr select_receive then select_receive.getD "" else "*")
            ++ " FROM " ++ tabela
            ++ "\n            "
            ++ (if pyTruthyStr inner_join_receive then inner_join_receive.getD "" else "")
            ++ "\n            "
            ++ (if pyTruthyStr condicao then "WHERE " ++ condicao.getD "" else "")
            ++ "\n            "
            ++ (if pyTruthyStr campo_ordenar && pyTruthyStr ordenacao then
                  "ORDER BY " ++ campo_ordenar.getD "" ++ " " ++ ordenacao.getD ""
                else "")
            ++ "\n            LIMIT " ++ toString limite_por_pagina
            ++ " OFFSET " ++ toString ((pagina - 1) * limite_por_pagina)
            ++ "\n        ")
    ∧ (∀ (conn : SQLConn) (tabela : String) (cols : List String) (rows : List Row),
        rows.length = 12 →
        conn (OperationsSQL.filterQueryStr tabela none none none 5 2 none none)
          = .ok { columns := cols, rows := (rows.drop 5).take 5 } →
        OperationsSQL.filter conn tabela none none none 5 2 none none
            = ((rows.drop 5).take 5).map (fun row => cols.zip row)
          ∧ ((rows.drop 5).take 5).length = 5
          ∧ ∀ i : Nat, i < 5 → ((rows.drop 5).take 5)[i]? = rows[5 + i]?) := by
  constructor
  · intro tabela condicao campo_ordenar ordenacao limite_por_pagina pagina
      inner_join_receive select_receive
    exact ⟨rfl, rfl⟩
  · intro conn tabela cols rows hlen hconn
    refine ⟨?_, ?_, ?_⟩
    · simp [OperationsSQL.filter, hconn]
    · simp [List.length_take, List.length_drop, hlen]
    · intro i hi
      simp [List.getElem?_take, List.getElem?_drop, hi]

/-- Twelve rows, row `i` holding the single value `i`. -/
def exTwelveRows : List Row := (List.range 12).map (fun i => [JValue.int (i : Int)])

/-- Relational backend used by the C7 witness: honors `LIMIT 5 OFFSET 5`
of the statement assembled for page 2 of page-size 5 over the 12-row
result set. -/
def exFilterConn : SQLConn := fun q =>
  if q = OperationsSQL.filterQueryStr "registros" none none none 5 2 none none then
    .ok { columns := ["id"], rows := (exTwelveRows.drop 5).take 5 }
  else
    .error "unexpected statement"

/-- Witness for C7 at the concrete 12-row backend. -/
theorem C7_filter_offset_pagination_witness :
    OperationsSQL.filter exFilterConn "registros" none none none 5 2 none none
        = ((exTwelveRows.drop 5).take 5).map (fun row => (["id"] : List String).zip row)
      ∧ ((exTwelveRows.drop 5).take 5).length = 5
      ∧ ∀ i : Nat, i < 5 → ((exTwelveRows.drop 5).take 5)[i]? = exTwelveRows[5 + i]? :=
  C7_filter_offset_pagination.2 exFilterConn "registros" ["id"] exTwelveRows
    (by rfl) (by simp [exFilterConn])

/-- C8: with a truthy filter containing `tela`, `queryFilter` issues the
query carrying exactly the fixed three-clause OR filter expression, with
`:t` bound to the filter's `tela` value and `:d`, `:c` hardcoded to
`False`; with no truthy filter it issues a plain key-condition query
with no filter expression and no bindings. -/
theorem C8_queryFilter_fixed_filter :
    (∀ (expression : KeyCond) (fs : List (String × JValue)) (t : JValue),
        fs ≠ [] → fs.lookup "tela" = some t →
        OperationsDynamo.queryFilterQuery expression (some fs)
            = .ok (OperationsDynamo.queryFilterFilteredQuery expression t)
          ∧ (OperationsDynamo.queryFilterFilteredQuery expression t).filterExpr
            = some "tela = :t OR descricao = :d OR cliente = :c"
          ∧ (OperationsDynamo.queryFilterFilteredQuery expression t).exprAttrValues
            = some [(":t", t), (":d", .bool false), (":c", .bool false)]
          ∧ (OperationsDynamo.queryFilterFilteredQuery expression t).keyCond = expression)
    ∧ (∀ (expression : KeyCond) (filtro : Option (List (String × JValue))),
        pyTruthyDict filtro = false →
        OperationsDynamo.queryFilterQuery expression filtro
            = .ok (OperationsDynamo.queryFilterPlainQuery expression)
          ∧ (OperationsDynamo.queryFilterPlainQuery expression).filterExpr = none
          ∧ (OperationsDynamo.queryFilterPlainQuery expression).exprAttrValues = none
          ∧ (OperationsDynamo.queryFilterPlainQuery expression).keyCond = expression) := by
  constructor
  · intro expression fs t hne ht
    obtain ⟨⟨k, v⟩, rest, rfl⟩ : ∃ p rest, fs = p :: rest := by
      cases fs with
      | nil => exact absurd rfl hne
      | cons p rest => exact ⟨p, rest, rfl⟩
    exact ⟨by simp [OperationsDynamo.queryFilterQuery, pyTruthyDict, ht], rfl, rfl, rfl⟩
  · intro expression filtro hf
    exact ⟨by simp [OperationsDynamo.queryFilterQuery, hf], rfl, rfl, rfl⟩

/-- Witness for C8: the filter `{"tela": "home"}` and the absent
filter. -/
theorem C8_queryFilter_fixed_filter_witness :
    (OperationsDynamo.queryFilterQuery (.expr "pk") (some [("tela", .str "home")])
        = .ok (OperationsDynamo.queryFilterFilteredQuery (.expr "pk") (.str "home"))
      ∧ (OperationsDynamo.queryFilterFilteredQuery (.expr "pk") (.str "home")).filterExpr
        = some "tela = :t OR descricao = :d OR cliente = :c")
    ∧ (OperationsDynamo.queryFilterQuery (.expr "pk") none
        = .ok (OperationsDynamo.queryFilterPlainQuery (.expr "pk"))
      ∧ (OperationsDynamo.queryFilterPlainQuery (.expr "pk")).filterExpr = none) :=
  ⟨⟨((C8_queryFilter_fixed_filter.1 (.expr "pk") [("tela", .str "home")] (.str "home")
      (by simp) (by simp)).1),
    ((C8_queryFilter_fixed_filter.1 (.expr "pk") [("tela", .str "home")] (.str "home")
      (by simp) (by simp)).2.1)⟩,
   ⟨((C8_queryFilter_fixed_filter.2 (.expr "pk") none rfl).1),
    ((C8_queryFilter_fixed_filter.2 (.expr "pk") none rfl).2.1)⟩⟩

end DjangoOps
